import Mathlib

/-!
Shallow embedding of the dust-suppression controller in
`dust_monitoring_app.py` (`DustSuppressionController`), together with
theorems about its decision rule, its resource formulas and its
append-only suppression log.

Python floats are modelled by rational numbers: every literal appearing
in the controller (0.95, 0.6, 1.0, the constant durations, and the
boundary test values 47.5, 47.6, 50.0, 50.1) is exactly representable
in binary floating point, and `50.0 * 0.95` rounds to exactly `47.5`,
so on the inputs of interest the rational model agrees with the float
execution.  The mutation of `self.suppression_history` is modelled by
explicit state passing: the method returns the result record together
with the updated controller state.
-/

namespace DustMonitoring

/-- A Python value as far as the controller observes it: the `timestamp`
argument can be `None`, a string, or a number, and is only inspected for
truthiness by `timestamp or 'now'`. -/
inductive PyVal where
  | none
  | str (s : String)
  | intV (n : Int)
deriving DecidableEq

/-- Python truthiness for the values of `PyVal`: `None` is falsy, a
string is truthy iff nonempty, an integer is truthy iff nonzero. -/
def PyVal.truthy : PyVal → Bool
  | PyVal.none => false
  | PyVal.str s => s != ""
  | PyVal.intV n => n != 0

/-- The result dictionary built at lines 44-53 of the source, with its
fields in source order. -/
structure SuppressionDecision where
  timestamp : PyVal
  predicted_pm : ℚ
  level : String
  intensity : ℚ
  duration : ℚ
  action : String
  water_usage : ℚ
  energy : ℚ
deriving DecidableEq

/-- State of a `DustSuppressionController` instance: the configured
`threshold_pm` and the `suppression_history` list (`__init__`, lines
11-13 of the source). -/
structure DustSuppressionController where
  threshold_pm : ℚ
  suppression_history : List SuppressionDecision
deriving DecidableEq

/-- Embedding of `DustSuppressionController.evaluate_and_control`
(lines 15-59 of the source).  The local variables `level`, `action`, `intensity`,
`duration`, `water_usage`, `energy` start at their defaults
(`"LOW"`, `"NONE"`, 0, 0, 0, 0) and are reassigned inside
`if predicted_pm > self.threshold_pm * 0.95`, with the inner test
`predicted_pm > self.threshold_pm` choosing HIGH (1.0, 30 min) over
MEDIUM (0.6, 15 min); in the activated branches
`water_usage = intensity * duration * 10` and
`energy = intensity * duration * 0.5`.  The result dictionary stores
`timestamp or 'now'` and echoes `predicted_pm`; when
`action == "ACTIVATE"` the result is appended to
`suppression_history`.  Returns the result together with the updated
controller state. -/
def evaluate_and_control (self : DustSuppressionController) (predicted_pm : ℚ)
    (timestamp : PyVal) : SuppressionDecision × DustSuppressionController :=
  let tsField : PyVal := if timestamp.truthy then timestamp else PyVal.str "now"
  let result : SuppressionDecision :=
    if predicted_pm > self.threshold_pm * 0.95 then
      if predicted_pm > self.threshold_pm then
        let intensity : ℚ := 1.0
        let duration : ℚ := 30
        ⟨tsField, predicted_pm, "HIGH", intensity, duration, "ACTIVATE",
          intensity * duration * 10, intensity * duration * 0.5⟩
      else
        let intensity : ℚ := 0.6
        let duration : ℚ := 15
        ⟨tsField, predicted_pm, "MEDIUM", intensity, duration, "ACTIVATE",
          intensity * duration * 10, intensity * duration * 0.5⟩
    else
      ⟨tsField, predicted_pm, "LOW", 0.0, 0, "NONE", 0.0, 0.0⟩
  if result.action == "ACTIVATE" then
    (result, { self with suppression_history := self.suppression_history ++ [result] })
  else
    (result, self)

/-- The decision record returned by one call. -/
def evalResult (self : DustSuppressionController) (pm : ℚ) (ts : PyVal) :
    SuppressionDecision :=
  (evaluate_and_control self pm ts).1

/-- The controller state after one call. -/
def evalState (self : DustSuppressionController) (pm : ℚ) (ts : PyVal) :
    DustSuppressionController :=
  (evaluate_and_control self pm ts).2

/-- Run a sequence of calls to `evaluate_and_control` on one instance,
threading the state, and return the final state. -/
def runCalls (self : DustSuppressionController) :
    List (ℚ × PyVal) → DustSuppressionController
  | [] => self
  | (pm, ts) :: rest => runCalls (evalState self pm ts) rest

/-- The decision records produced by a sequence of calls, in call
order. -/
def callResults (self : DustSuppressionController) :
    List (ℚ × PyVal) → List SuppressionDecision
  | [] => []
  | (pm, ts) :: rest => evalResult self pm ts :: callResults (evalState self pm ts) rest

/-- The predicate selecting the records the controller logs. -/
def isActivated (r : SuppressionDecision) : Bool :=
  r.action == "ACTIVATE"

/-- Characterization of the LOW branch: when the outer guard fails, the
defaults are returned and the state is untouched. -/
theorem evaluate_eq_low (self : DustSuppressionController) (pm : ℚ) (ts : PyVal)
    (h : ¬ pm > self.threshold_pm * 0.95) :
    evaluate_and_control self pm ts =
      (⟨if ts.truthy then ts else PyVal.str "now", pm, "LOW", 0, 0, "NONE", 0, 0⟩,
        self) := by
  simp [evaluate_and_control, h]
  norm_num

/-- Characterization of the MEDIUM branch: outer guard holds, inner
guard fails. -/
theorem evaluate_eq_medium (self : DustSuppressionController) (pm : ℚ) (ts : PyVal)
    (h1 : pm > self.threshold_pm * 0.95) (h2 : ¬ pm > self.threshold_pm) :
    evaluate_and_control self pm ts =
      (⟨if ts.truthy then ts else PyVal.str "now", pm, "MEDIUM", 0.6, 15, "ACTIVATE",
          0.6 * 15 * 10, 0.6 * 15 * 0.5⟩,
        { self with suppression_history := self.suppression_history ++
            [⟨if ts.truthy then ts else PyVal.str "now", pm, "MEDIUM", 0.6, 15, "ACTIVATE",
              0.6 * 15 * 10, 0.6 * 15 * 0.5⟩] }) := by
  simp [evaluate_and_control, h1, h2]

/-- Characterization of the HIGH branch: both guards hold. -/
theorem evaluate_eq_high (self : DustSuppressionController) (pm : ℚ) (ts : PyVal)
    (h1 : pm > self.threshold_pm * 0.95) (h2 : pm > self.threshold_pm) :
    evaluate_and_control self pm ts =
      (⟨if ts.truthy then ts else PyVal.str "now", pm, "HIGH", 1.0, 30, "ACTIVATE",
          1.0 * 30 * 10, 1.0 * 30 * 0.5⟩,
        { self with suppression_history := self.suppression_history ++
            [⟨if ts.truthy then ts else PyVal.str "now", pm, "HIGH", 1.0, 30, "ACTIVATE",
              1.0 * 30 * 10, 1.0 * 30 * 0.5⟩] }) := by
  simp [evaluate_and_control, h1, h2]

/-- One call never changes the configured threshold. -/
theorem evalState_threshold (self : DustSuppressionController) (pm : ℚ) (ts : PyVal) :
    (evalState self pm ts).threshold_pm = self.threshold_pm := by
  by_cases h1 : pm > self.threshold_pm * 0.95
  · by_cases h2 : pm > self.threshold_pm
    · simp [evalState, evaluate_eq_high self pm ts h1 h2]
    · simp [evalState, evaluate_eq_medium self pm ts h1 h2]
  · simp [evalState, evaluate_eq_low self pm ts h1]

/-- One call appends exactly the produced record when it is activated
and nothing otherwise. -/
theorem evalState_history_eq (self : DustSuppressionController) (pm : ℚ) (ts : PyVal) :
    (evalState self pm ts).suppression_history =
      self.suppression_history ++
        (if isActivated (evalResult self pm ts) then [evalResult self pm ts] else []) := by
  by_cases h1 : pm > self.threshold_pm * 0.95
  · by_cases h2 : pm > self.threshold_pm
    · simp [evalState, evalResult, evaluate_eq_high self pm ts h1 h2, isActivated]
    · simp [evalState, evalResult, evaluate_eq_medium self pm ts h1 h2, isActivated]
  · simp [evalState, evalResult, evaluate_eq_low self pm ts h1, isActivated]

/-- The suppression history accumulated over a sequence of calls is the
initial history followed by the activated records, in call order. -/
theorem runCalls_history_eq (calls : List (ℚ × PyVal))
    (self : DustSuppressionController) :
    (runCalls self calls).suppression_history =
      self.suppression_history ++ (callResults self calls).filter isActivated := by
  induction calls generalizing self with
  | nil => simp [runCalls, callResults]
  | cons c rest ih =>
    obtain ⟨pm, ts⟩ := c
    rw [runCalls, callResults, ih, evalState_history_eq, List.filter_cons]
    cases h : isActivated (evalResult self pm ts) <;> simp [h]

/-- The timestamp field stored in the record is the argument when it is
truthy, and the string "now" otherwise, in every branch. -/
theorem evalResult_timestamp (self : DustSuppressionController) (pm : ℚ) (ts : PyVal) :
    (evalResult self pm ts).timestamp = if ts.truthy then ts else PyVal.str "now" := by
  by_cases h1 : pm > self.threshold_pm * 0.95
  · by_cases h2 : pm > self.threshold_pm
    · simp [evalResult, evaluate_eq_high self pm ts h1 h2]
    · simp [evalResult, evaluate_eq_medium self pm ts h1 h2]
  · simp [evalResult, evaluate_eq_low self pm ts h1]

/-- Claim C1: for every positive threshold and non-negative reading the
three bands produce exactly the outputs listed: LOW/NONE with zero
costs at or below 0.95 x threshold; MEDIUM activation with intensity
0.6, duration 15, water 90, energy 4.5 strictly inside the band; HIGH
activation with intensity 1.0, duration 30, water 300, energy 15 above
the threshold. -/
theorem evaluate_threshold_bands (self : DustSuppressionController) (pm : ℚ)
    (ts : PyVal) (ht : 0 < self.threshold_pm) (_hpm : 0 ≤ pm) :
    (pm ≤ 0.95 * self.threshold_pm →
      (evalResult self pm ts).level = "LOW" ∧ (evalResult self pm ts).action = "NONE" ∧
      (evalResult self pm ts).water_usage = 0 ∧ (evalResult self pm ts).energy = 0) ∧
    (0.95 * self.threshold_pm < pm ∧ pm ≤ self.threshold_pm →
      (evalResult self pm ts).level = "MEDIUM" ∧
      (evalResult self pm ts).action = "ACTIVATE" ∧
      (evalResult self pm ts).intensity = 0.6 ∧ (evalResult self pm ts).duration = 15 ∧
      (evalResult self pm ts).water_usage = 90 ∧ (evalResult self pm ts).energy = 4.5) ∧
    (self.threshold_pm < pm →
      (evalResult self pm ts).level = "HIGH" ∧
      (evalResult self pm ts).action = "ACTIVATE" ∧
      (evalResult self pm ts).intensity = 1 ∧ (evalResult self pm ts).duration = 30 ∧
      (evalResult self pm ts).water_usage = 300 ∧ (evalResult self pm ts).energy = 15) := by
  refine ⟨fun h => ?_, fun h => ?_, fun h => ?_⟩
  · have hlow : ¬ pm > self.threshold_pm * 0.95 := by
      push_neg
      linarith [mul_comm (0.95 : ℚ) self.threshold_pm]
    norm_num [evalResult, evaluate_eq_low self pm ts hlow]
  · have h1 : pm > self.threshold_pm * 0.95 := by
      have := h.1
      linarith [mul_comm (0.95 : ℚ) self.threshold_pm]
    have h2 : ¬ pm > self.threshold_pm := by
      push_neg
      exact h.2
    norm_num [evalResult, evaluate_eq_medium self pm ts h1 h2]
  · have h2 : pm > self.threshold_pm := h
    have h1 : pm > self.threshold_pm * 0.95 := by linarith
    norm_num [evalResult, evaluate_eq_high self pm ts h1 h2]

/-- Witness for C1 at threshold 50 and reading 30. -/
theorem evaluate_threshold_bands_witness :
    (evalResult ⟨50, []⟩ 30 PyVal.none).level = "LOW" := by
  have h := evaluate_threshold_bands ⟨50, []⟩ 30 PyVal.none (by norm_num) (by norm_num)
  exact (h.1 (by norm_num)).1

/-- Claim C3: every record satisfies the two resource formulas
water_usage = intensity * duration * 10 and
energy = intensity * duration * 0.5, in all three branches. -/
theorem water_energy_formulas (self : DustSuppressionController) (pm : ℚ) (ts : PyVal) :
    (evalResult self pm ts).water_usage =
      (evalResult self pm ts).intensity * (evalResult self pm ts).duration * 10 ∧
    (evalResult self pm ts).energy =
      (evalResult self pm ts).intensity * (evalResult self pm ts).duration * 0.5 := by
  by_cases h1 : pm > self.threshold_pm * 0.95
  · by_cases h2 : pm > self.threshold_pm
    · norm_num [evalResult, evaluate_eq_high self pm ts h1 h2]
    · norm_num [evalResult, evaluate_eq_medium self pm ts h1 h2]
  · norm_num [evalResult, evaluate_eq_low self pm ts h1]

/-- Claim C5: boundary classification at threshold 50.0: 47.5 is LOW,
47.6 is MEDIUM, 50.0 is MEDIUM, 50.1 is HIGH. -/
theorem boundary_values_50 :
    (evalResult ⟨50, []⟩ 47.5 PyVal.none).level = "LOW" ∧
    (evalResult ⟨50, []⟩ 47.6 PyVal.none).level = "MEDIUM" ∧
    (evalResult ⟨50, []⟩ 50.0 PyVal.none).level = "MEDIUM" ∧
    (evalResult ⟨50, []⟩ 50.1 PyVal.none).level = "HIGH" := by
  refine ⟨?_, ?_, ?_, ?_⟩
  · have e := evaluate_eq_low ⟨50, []⟩ 47.5 PyVal.none (by norm_num)
    simp [evalResult, e]
  · have e := evaluate_eq_medium ⟨50, []⟩ 47.6 PyVal.none (by norm_num) (by norm_num)
    simp [evalResult, e]
  · have e := evaluate_eq_medium ⟨50, []⟩ 50.0 PyVal.none (by norm_num) (by norm_num)
    simp [evalResult, e]
  · have e := evaluate_eq_high ⟨50, []⟩ 50.1 PyVal.none (by norm_num) (by norm_num)
    simp [evalResult, e]

/-- Claim C9: the stored timestamp is the caller's argument exactly when
that argument is truthy; None, the empty string and the integer 0 all
yield the string "now". -/
theorem timestamp_truthiness (self : DustSuppressionController) (pm : ℚ) (ts : PyVal) :
    (evalResult self pm ts).timestamp = (if ts.truthy then ts else PyVal.str "now") ∧
    (evalResult self pm PyVal.none).timestamp = PyVal.str "now" ∧
    (evalResult self pm (PyVal.str "")).timestamp = PyVal.str "now" ∧
    (evalResult self pm (PyVal.intV 0)).timestamp = PyVal.str "now" := by
  refine ⟨evalResult_timestamp self pm ts, ?_, ?_, ?_⟩
  · simp [evalResult_timestamp, PyVal.truthy]
  · simp [evalResult_timestamp, PyVal.truthy]
  · simp [evalResult_timestamp, PyVal.truthy]

/-- Claim C10: a negative reading with a non-negative threshold falls in
the default branch: LOW, NONE, zero intensity, duration, water and
energy, the reading echoed, and the history untouched. -/
theorem negative_pm_passthrough (self : DustSuppressionController) (pm : ℚ)
    (ts : PyVal) (hpm : pm < 0) (ht : 0 ≤ self.threshold_pm) :
    (evalResult self pm ts).level = "LOW" ∧ (evalResult self pm ts).action = "NONE" ∧
    (evalResult self pm ts).intensity = 0 ∧ (evalResult self pm ts).duration = 0 ∧
    (evalResult self pm ts).water_usage = 0 ∧ (evalResult self pm ts).energy = 0 ∧
    (evalResult self pm ts).predicted_pm = pm ∧
    (evalState self pm ts).suppression_history = self.suppression_history := by
  have hth : (0 : ℚ) ≤ self.threshold_pm * 0.95 :=
    mul_nonneg ht (by norm_num)
  have hlow : ¬ pm > self.threshold_pm * 0.95 := by
    push_neg
    linarith
  norm_num [evalResult, evalState, evaluate_eq_low self pm ts hlow]

/-- Witness for C10 at threshold 50 and reading -1. -/
theorem negative_pm_passthrough_witness :
    (evalResult ⟨50, []⟩ (-1) PyVal.none).level = "LOW" := by
  have h := negative_pm_passthrough ⟨50, []⟩ (-1) PyVal.none (by norm_num) (by norm_num)
  exact h.1

/-- Claim C2 counterexample: with the negative threshold -10 and the
reading -9.8 the record's level is LOW while -9.8 > -10 holds, so
level = HIGH is not equivalent to pm_reading > threshold when the
threshold ranges over all values. -/
theorem evaluate_high_iff_counterexample :
    ¬ (((evalResult ⟨-10, []⟩ (-9.8) PyVal.none).level = "HIGH") ↔
        ((-9.8 : ℚ) > -10)) := by
  have e := evaluate_eq_low ⟨-10, []⟩ (-9.8) PyVal.none (by norm_num)
  simp [evalResult, e]
  norm_num

/-- Claim C2 (amended to non-negative thresholds): action = ACTIVATE,
level in {MEDIUM, HIGH} and pm_reading > 0.95 x threshold are pairwise
equivalent for every input, and level = HIGH holds exactly when
pm_reading > threshold. -/
theorem evaluate_action_level_invariant (self : DustSuppressionController)
    (pm : ℚ) (ts : PyVal) (ht : 0 ≤ self.threshold_pm) :
    ((evalResult self pm ts).action = "ACTIVATE" ↔
      ((evalResult self pm ts).level = "MEDIUM" ∨
        (evalResult self pm ts).level = "HIGH")) ∧
    ((evalResult self pm ts).action = "ACTIVATE" ↔
      pm > 0.95 * self.threshold_pm) ∧
    ((evalResult self pm ts).level = "HIGH" ↔ pm > self.threshold_pm) := by
  by_cases h1 : pm > self.threshold_pm * 0.95
  · by_cases h2 : pm > self.threshold_pm
    · have e := evaluate_eq_high self pm ts h1 h2
      have ha : (evalResult self pm ts).action = "ACTIVATE" := by simp [evalResult, e]
      have hl : (evalResult self pm ts).level = "HIGH" := by simp [evalResult, e]
      have h1' : pm > 0.95 * self.threshold_pm := by
        rw [mul_comm]
        exact h1
      exact ⟨⟨fun _ => Or.inr hl, fun _ => ha⟩, ⟨fun _ => h1', fun _ => ha⟩,
        ⟨fun _ => h2, fun _ => hl⟩⟩
    · have e := evaluate_eq_medium self pm ts h1 h2
      have ha : (evalResult self pm ts).action = "ACTIVATE" := by simp [evalResult, e]
      have hl : (evalResult self pm ts).level = "MEDIUM" := by simp [evalResult, e]
      have h1' : pm > 0.95 * self.threshold_pm := by
        rw [mul_comm]
        exact h1
      refine ⟨⟨fun _ => Or.inl hl, fun _ => ha⟩, ⟨fun _ => h1', fun _ => ha⟩,
        iff_of_false ?_ h2⟩
      rw [hl]
      simp
  · have e := evaluate_eq_low self pm ts h1
    have ha : (evalResult self pm ts).action = "NONE" := by simp [evalResult, e]
    have hl : (evalResult self pm ts).level = "LOW" := by simp [evalResult, e]
    have hna : ¬ (evalResult self pm ts).action = "ACTIVATE" := by
      rw [ha]
      simp
    have hnb : ¬ pm > 0.95 * self.threshold_pm := by
      rw [mul_comm]
      exact h1
    have hle : pm ≤ self.threshold_pm := by
      push_neg at h1
      linarith
    refine ⟨iff_of_false hna ?_, iff_of_false hna hnb,
      iff_of_false ?_ (not_lt.mpr hle)⟩
    · rw [hl]
      simp
    · rw [hl]
      simp

/-- Witness for amended C2 at threshold 50 and reading 60. -/
theorem evaluate_action_level_invariant_witness :
    ((evalResult ⟨50, []⟩ 60 PyVal.none).level = "HIGH" ↔ (60 : ℚ) > 50) := by
  have h := evaluate_action_level_invariant ⟨50, []⟩ 60 PyVal.none (by norm_num)
  exact h.2.2

/-- Claim C4: over any sequence of calls on one instance, the final
suppression history is the starting history extended, in call order, by
exactly those produced records whose action is ACTIVATE. -/
theorem suppression_history_is_activated_filter (self : DustSuppressionController)
    (calls : List (ℚ × PyVal)) :
    (runCalls self calls).suppression_history =
      self.suppression_history ++ (callResults self calls).filter isActivated :=
  runCalls_history_eq calls self

/-- The record depends on the state only through the threshold: two
calls with the same reading on states sharing a threshold agree on
every field except possibly the timestamp. -/
theorem evalResult_fields_eq (s1 s2 : DustSuppressionController) (pm : ℚ)
    (ts1 ts2 : PyVal) (h : s1.threshold_pm = s2.threshold_pm) :
    (evalResult s1 pm ts1).predicted_pm = (evalResult s2 pm ts2).predicted_pm ∧
    (evalResult s1 pm ts1).level = (evalResult s2 pm ts2).level ∧
    (evalResult s1 pm ts1).intensity = (evalResult s2 pm ts2).intensity ∧
    (evalResult s1 pm ts1).duration = (evalResult s2 pm ts2).duration ∧
    (evalResult s1 pm ts1).action = (evalResult s2 pm ts2).action ∧
    (evalResult s1 pm ts1).water_usage = (evalResult s2 pm ts2).water_usage ∧
    (evalResult s1 pm ts1).energy = (evalResult s2 pm ts2).energy := by
  by_cases h1 : pm > s1.threshold_pm * 0.95
  · by_cases h2 : pm > s1.threshold_pm
    · have h1' := h1
      have h2' := h2
      rw [h] at h1' h2'
      simp [evalResult, evaluate_eq_high s1 pm ts1 h1 h2,
        evaluate_eq_high s2 pm ts2 h1' h2']
    · have h1' := h1
      have h2' := h2
      rw [h] at h1' h2'
      simp [evalResult, evaluate_eq_medium s1 pm ts1 h1 h2,
        evaluate_eq_medium s2 pm ts2 h1' h2']
  · have h1' := h1
    rw [h] at h1'
    simp [evalResult, evaluate_eq_low s1 pm ts1 h1, evaluate_eq_low s2 pm ts2 h1']

/-- Claim C6: a repeated call with the same reading (the threshold being
fixed on the instance) reproduces every decision field except possibly
the timestamp, and over any call sequence the history grows by exactly
the number of produced records whose action is ACTIVATE. -/
theorem evaluate_repeat_and_log_length (self : DustSuppressionController)
    (pm : ℚ) (ts1 ts2 : PyVal) (calls : List (ℚ × PyVal)) :
    ((evalResult (evalState self pm ts1) pm ts2).predicted_pm =
        (evalResult self pm ts1).predicted_pm ∧
      (evalResult (evalState self pm ts1) pm ts2).level =
        (evalResult self pm ts1).level ∧
      (evalResult (evalState self pm ts1) pm ts2).intensity =
        (evalResult self pm ts1).intensity ∧
      (evalResult (evalState self pm ts1) pm ts2).duration =
        (evalResult self pm ts1).duration ∧
      (evalResult (evalState self pm ts1) pm ts2).action =
        (evalResult self pm ts1).action ∧
      (evalResult (evalState self pm ts1) pm ts2).water_usage =
        (evalResult self pm ts1).water_usage ∧
      (evalResult (evalState self pm ts1) pm ts2).energy =
        (evalResult self pm ts1).energy) ∧
    (runCalls self calls).suppression_history.length =
      self.suppression_history.length +
        (callResults self calls).countP isActivated := by
  constructor
  · exact evalResult_fields_eq (evalState self pm ts1) self pm ts2 ts1
      (evalState_threshold self pm ts1)
  · rw [runCalls_history_eq, List.length_append, List.countP_eq_length_filter]

/-- Claim C7: for every non-negative reading the call returns a record
and an updated state, and the record is well formed: the level is one
of the three names, the action one of the two, intensity lies in
[0, 1], and duration, water and energy are non-negative. -/
theorem evaluate_total_wellformed (self : DustSuppressionController) (pm : ℚ)
    (ts : PyVal) (_hpm : 0 ≤ pm) :
    ∃ r s2, evaluate_and_control self pm ts = (r, s2) ∧
      (r.level = "LOW" ∨ r.level = "MEDIUM" ∨ r.level = "HIGH") ∧
      (r.action = "NONE" ∨ r.action = "ACTIVATE") ∧
      0 ≤ r.intensity ∧ r.intensity ≤ 1 ∧ 0 ≤ r.duration ∧
      0 ≤ r.water_usage ∧ 0 ≤ r.energy := by
  refine ⟨evalResult self pm ts, evalState self pm ts, rfl, ?_⟩
  by_cases h1 : pm > self.threshold_pm * 0.95
  · by_cases h2 : pm > self.threshold_pm
    · norm_num [evalResult, evaluate_eq_high self pm ts h1 h2]
    · norm_num [evalResult, evaluate_eq_medium self pm ts h1 h2]
  · norm_num [evalResult, evaluate_eq_low self pm ts h1]

/-- Witness for C7 at threshold 50 and reading 30. -/
theorem evaluate_total_wellformed_witness :
    ∃ r s2, evaluate_and_control ⟨50, []⟩ 30 PyVal.none = (r, s2) ∧
      (r.level = "LOW" ∨ r.level = "MEDIUM" ∨ r.level = "HIGH") ∧
      (r.action = "NONE" ∨ r.action = "ACTIVATE") ∧
      0 ≤ r.intensity ∧ r.intensity ≤ 1 ∧ 0 ≤ r.duration ∧
      0 ≤ r.water_usage ∧ 0 ≤ r.energy :=
  evaluate_total_wellformed ⟨50, []⟩ 30 PyVal.none (by norm_num)

/-- Claim C8: a call leaves the configured threshold unchanged and its
only effect on the state is either to leave the history as it was or to
append the single produced record to it. -/
theorem evaluate_frame (self : DustSuppressionController) (pm : ℚ) (ts : PyVal) :
    (evalState self pm ts).threshold_pm = self.threshold_pm ∧
    ((evalState self pm ts).suppression_history = self.suppression_history ∨
      (evalState self pm ts).suppression_history =
        self.suppression_history ++ [evalResult self pm ts]) := by
  refine ⟨evalState_threshold self pm ts, ?_⟩
  rw [evalState_history_eq]
  cases h : isActivated (evalResult self pm ts) <;> simp [h]

end DustMonitoring
